import Mathlib

/-!
Verification of the ghexport activity-report pipeline.

The development shallowly embeds the report-generation core of the
repository: the issue operation classifier, the calendar-month fetch
window, the pagination loop, the CSV/Markdown renderers with their
truncation rules, and the repository driver loop.  JavaScript `Date`
values are modelled by their epoch-millisecond timestamp together with
the local calendar fields the code reads; JavaScript strings are Lean
strings; fallible API calls are `Except` values supplied as inputs.
-/

namespace GHExport

/-- Model of a JavaScript `Date`: `time` is `getTime()` (epoch ms),
`year` is `getFullYear()` and `month` is `getMonth()` (0-based), the
only accessors the classifier uses. -/
structure JSDate where
  time : Int
  year : Int
  month : Int
deriving DecidableEq

/-- Helper from `determineOperation` (issues module): two dates are in the
same calendar month when `getFullYear()` and `getMonth()` agree. -/
def inSameMonth (d1 d2 : JSDate) : Bool :=
  d1.year == d2.year && d1.month == d2.month

/-- Milliseconds per day, the divisor `1000 * 60 * 60 * 24`. -/
def msPerDay : Int := 86400000

/-- The issue operation classifier `determineOperation(updatedAt, createdAt,
closedAt, stateReason)` from the issues module.  The JavaScript computes
`daysBetween` by floating-point division; for this divisor the test
`daysBetween >= 1` is exactly `diff / 86400000 >= 1` on integers, which is
how it is rendered here. -/
def determineOperation (updatedAt createdAt : JSDate) (closedAt : Option JSDate)
    (stateReason : Option String) : String :=
  -- First determine the close operation based on state_reason
  let closeOperation : String :=
    if stateReason = some "reopened" then "Reopened"
    else if stateReason = some "completed" then "Completed"
    else if stateReason = some "not_planned" then "Ignored"
    else "Closed"
  match closedAt with
  | some closed =>
      -- Check if created in the same month as closed
      if inSameMonth createdAt closed then "Created and " ++ closeOperation
      else closeOperation
  | none =>
      -- If no closedAt date, check creation and update scenarios
      if inSameMonth createdAt updatedAt then
        if createdAt.time = updatedAt.time then "Created"
        else if (updatedAt.time - createdAt.time) / msPerDay ≥ 1 then "Updated a New Issue"
        else "Created"
      else
        -- If createdAt is in a previous month and we have an update
        if createdAt.time < updatedAt.time then "Updated"
        else "Updated"

/-- The classifier as the specification words it (claim C1): base close label,
"Created and " prefix on same-month close; otherwise same-month create/update
distinguished by an exact-equality or a one-day gap; every remaining case is
"Updated". -/
def determineOperationSpec (updatedAt createdAt : JSDate) (closedAt : Option JSDate)
    (stateReason : Option String) : String :=
  match closedAt with
  | some closed =>
      let base : String :=
        if stateReason = some "reopened" then "Reopened"
        else if stateReason = some "completed" then "Completed"
        else if stateReason = some "not_planned" then "Ignored"
        else "Closed"
      if inSameMonth createdAt closed then "Created and " ++ base else base
  | none =>
      if inSameMonth createdAt updatedAt then
        if createdAt.time = updatedAt.time then "Created"
        else if updatedAt.time - createdAt.time ≥ msPerDay then "Updated a New Issue"
        else "Created"
      else "Updated"

/-- Days since the Unix epoch of a proleptic-Gregorian civil date
(year ≥ 1, 1-based month and day), modelling the calendar arithmetic of
the JavaScript `Date` constructor in a fixed UTC-like zone. -/
def daysFromCivil (y m d : Nat) : Int :=
  let yAdj := if m ≤ 2 then y - 1 else y
  let era := yAdj / 400
  let yoe := yAdj - era * 400
  let mp := if m > 2 then m - 3 else m + 9
  let doy := (153 * mp + 2) / 5 + (d - 1)
  let doe := yoe * 365 + yoe / 4 - yoe / 100 + doy
  (era * 146097 + doe : Int) - 719468

/-- Epoch milliseconds of a civil date plus a time of day in milliseconds. -/
def msOfDate (y m d : Nat) (msInDay : Int) : Int :=
  daysFromCivil y m d * msPerDay + msInDay

/-- `new Date(year, month - 1, 1)`: midnight on day 1 of the report month
(`month` is the 1-based month number from the command line). -/
def startDateMs (year month : Nat) : Int := msOfDate year month 1 0

/-- Midnight on day 1 of the month after the report month (JavaScript
normalizes month index 12 to January of the next year). -/
def nextMonthStartMs (year month : Nat) : Int :=
  if month = 12 then msOfDate (year + 1) 1 1 0 else msOfDate year (month + 1) 1 0

/-- `new Date(year, month, 0)`: JavaScript normalizes day 0 of the next
month to the day before its day 1, i.e. midnight on the last day of the
report month. -/
def endDateMs (year month : Nat) : Int := nextMonthStartMs year month - msPerDay

/-- Length in days of a calendar month (reference definition used to state
what `endDateMs` is). -/
def daysInMonth (y m : Nat) : Nat :=
  if m = 2 then (if y % 4 = 0 ∧ (y % 100 ≠ 0 ∨ y % 400 = 0) then 29 else 28)
  else if m = 4 ∨ m = 6 ∨ m = 9 ∨ m = 11 then 30 else 31

/-- The client-side window test of `getMonthlyIssueActivity`:
`updatedAt >= new Date(startDate) && updatedAt <= new Date(endDate)`. -/
def issueInWindow (year month : Nat) (updatedAt : Int) : Bool :=
  startDateMs year month ≤ updatedAt && updatedAt ≤ endDateMs year month

/-- A raw issue from the API response, reduced to the fields the
filter/sort stage reads (`updated_at` as an epoch-ms timestamp) plus an
identifying number. -/
structure RawIssue where
  updated_at : Int
  number : Nat
deriving DecidableEq

/-- `getMonthlyIssueActivity` up to its per-record formatting: the list
call either throws (caught: log and return `[]`) or returns records that
are filtered to the month window on `updated_at` and sorted ascending by
`updated_at`.  The subsequent `.map` to display records is one-to-one and
order preserving, so it is elided here. -/
def getMonthlyIssueActivity (year month : Nat)
    (fetchResult : Except String (List RawIssue)) : List RawIssue :=
  match fetchResult with
  | .error _ => []
  | .ok data =>
      (data.filter (fun issue => issueInWindow year month issue.updated_at)).mergeSort
        (fun a b => a.updated_at ≤ b.updated_at)

/-- A commit stub from the paginated list call (`sha` is all the loop
reads before the detail fetch). -/
structure RawCommit where
  sha : String
deriving DecidableEq

/-- The processed commit record of the commits module. -/
structure Commit where
  url : String
  date : String
  repo : String
  message : String
  author : String
  additions : Nat
  deletions : Nat
  files : List String
deriving DecidableEq

/-- Model of `new Date(displayString).getTime()` for the en-US display
format `"MM/DD/YYYY h:mm AM"` produced by the fetcher, used by the commit
sort comparator. -/
def parseDateMs (s : String) : Int :=
  match s.splitOn " " with
  | [datePart, timePart, meridiem] =>
      (match datePart.splitOn "/", timePart.splitOn ":" with
       | [mo, dy, yr], [hh, mi] =>
          let m := mo.toNat?.getD 0
          let d := dy.toNat?.getD 0
          let y := yr.toNat?.getD 0
          let h12 := hh.toNat?.getD 0
          let mins := mi.toNat?.getD 0
          let h := if meridiem = "PM" then (if h12 = 12 then 12 else h12 + 12)
                   else (if h12 = 12 then 0 else h12)
          msOfDate y m d ((h * 3600000 + mins * 60000 : Nat) : Int)
       | _, _ => 0)
  | _ => 0

/-- The commit sort of `getMonthlyCommitActivity`: the comparator re-parses
the formatted display date and compares the timestamps ascending. -/
def sortCommits (l : List Commit) : List Commit :=
  l.mergeSort (fun a b => parseDateMs a.date ≤ parseDateMs b.date)

/-- The pagination loop of `getMonthlyCommitActivity`: starting at page 1,
append each page's records and stop as soon as a page returns fewer than
100 records.  `pages` gives the response for each page number; `fuel`
bounds the recursion (the theorems show any `fuel` past the first short
page gives the same result, i.e. the loop terminates there). -/
def fetchCommitPages (pages : Nat → List RawCommit) : Nat → Nat → List RawCommit
  | 0, _ => []
  | fuel + 1, page =>
      let data := pages page
      if data.length < 100 then data
      else data ++ fetchCommitPages pages fuel (page + 1)

/-- `getMonthlyCommitActivity`: the whole try-block either throws at the
list/page fetch (caught: log and return `[]`) or paginates, performs a
detail fetch per commit (a failing detail fetch drops just that commit),
and sorts the processed records by display date. -/
def getMonthlyCommitActivity (pagesResult : Except String (Nat → List RawCommit))
    (fuel : Nat) (getCommitDetail : RawCommit → Except String Commit) : List Commit :=
  match pagesResult with
  | .error _ => []
  | .ok pages =>
      let allCommits := fetchCommitPages pages fuel 1
      let processedCommits := allCommits.filterMap (fun c => (getCommitDetail c).toOption)
      sortCommits processedCommits

/-- The `--format` values. -/
inductive Format
  | csv
  | nl
deriving DecidableEq

/-- One step of `.replace(/,/g, ';').replace(/\n/g, ' ')`: both regexes
match single characters and `;` is not `\n`, so the composition is this
per-character map. -/
def escapeChar (c : Char) : Char :=
  if c = ',' then ';' else if c = '\n' then ' ' else c

/-- `message.replace(/,/g, ';').replace(/\n/g, ' ')`. -/
def escapeField (s : String) : String :=
  String.mk (s.data.map escapeChar)

/-- The 1024-character truncation applied to the escaped commit message
and issue body in CSV rows: over 1024 characters, keep the first 1021 and
append `"..."`. -/
def truncate1024 (escaped : String) : String :=
  if escaped.length > 1024 then String.mk (escaped.data.take 1021) ++ "..." else escaped

/-- The CSV file-list truncation: over 50 entries, keep the first 49 and
append one `"...and N more files"` marker. -/
def truncateFiles (files : List String) : List String :=
  if files.length > 50 then
    files.take 49 ++ ["...and " ++ toString (files.length - 49) ++ " more files"]
  else files

/-- One CSV data row of the commits report (template literal from
`generateMonthlyReport` in the commits module). -/
def commitCsvRow (owner : String) (c : Commit) : String :=
  c.date ++ "," ++ owner ++ "," ++ c.repo ++ "," ++ c.author ++ "," ++
  toString c.additions ++ "," ++ toString c.deletions ++ ",\"" ++
  String.intercalate "," (truncateFiles c.files) ++ "\"," ++
  truncate1024 (escapeField c.message)

/-- The processed issue record of the issues module (date fields already
formatted to display strings). -/
structure Issue where
  updatedAt : String
  createdAt : String
  closedAt : Option String
  assignee : String
  operation : String
  repo : String
  title : String
  number : Nat
  state : String
  author : String
  body : String
  labels : List String
  milestone : String
  state_reason : String
deriving DecidableEq

/-- One CSV data row of the issues report (template literal from
`generateMonthlyReport` in the issues module); only `body` passes through
the escape, `closedAt || ''` renders `none` as the empty string. -/
def issueCsvRow (owner : String) (i : Issue) : String :=
  i.updatedAt ++ "," ++ i.createdAt ++ "," ++ (i.closedAt.getD "") ++ "," ++
  i.assignee ++ "," ++ owner ++ "," ++ i.repo ++ "," ++ i.author ++ "," ++
  i.title ++ "," ++ i.state ++ ",\"" ++ String.intercalate "," i.labels ++ "\"," ++
  i.milestone ++ "," ++ truncate1024 (escapeField i.body)

/-- The issue CSV row as the specification words it (claim C6): every
free-text field (assignee, author, title, labels, milestone, body) escaped
before being embedded. -/
def issueCsvRowSpecEscaped (owner : String) (i : Issue) : String :=
  i.updatedAt ++ "," ++ i.createdAt ++ "," ++ (i.closedAt.getD "") ++ "," ++
  escapeField i.assignee ++ "," ++ owner ++ "," ++ i.repo ++ "," ++
  escapeField i.author ++ "," ++ escapeField i.title ++ "," ++ i.state ++ ",\"" ++
  String.intercalate "," (i.labels.map escapeField) ++ "\"," ++
  escapeField i.milestone ++ "," ++ truncate1024 (escapeField i.body)

/-- `new Date(year, month - 1).toLocaleString('default', { month: 'long' })`
in an English locale. -/
def monthName (month : Nat) : String :=
  match month with
  | 1 => "January"
  | 2 => "February"
  | 3 => "March"
  | 4 => "April"
  | 5 => "May"
  | 6 => "June"
  | 7 => "July"
  | 8 => "August"
  | 9 => "September"
  | 10 => "October"
  | 11 => "November"
  | 12 => "December"
  | _ => ""

/-- One `### Commit ...` subsection of the natural-language commits report. -/
def commitNlSection (owner repo : String) (c : Commit) : String :=
  "### Commit on " ++ c.date ++ " in repository " ++ owner ++ "/" ++ repo ++
    " by " ++ c.author ++ "\n" ++
  "- **Message:** " ++ c.message ++ "\n" ++
  "- **Changes:** +" ++ toString c.additions ++ " -" ++ toString c.deletions ++ "\n" ++
  (if c.files.length > 0 then
    "- **Files Changed:**\n" ++
    String.join ((if c.files.length > 10 then c.files.take 10 else c.files).map
      (fun f => "  - " ++ f ++ "\n")) ++
    (if c.files.length > 10 then
      "  - ...and " ++ toString (c.files.length - 10) ++ " more files\n"
     else "")
   else "") ++
  "- **URL:** " ++ c.url ++ "\n\n"

/-- `generateMonthlyReport` of the commits module, with the fetched records
and the parsed `--format` passed as values: `null` when there are no
commits, otherwise the header plus a CSV block or the natural-language
report. -/
def generateMonthlyReportCommits (owner repo : String) (year month : Nat)
    (format : Format) (commits : List Commit) : Option String :=
  let mName := monthName month
  if commits.length = 0 then none
  else
    let header := "# GitHub Commits in " ++ repo ++ " owned by " ++ owner ++
      " for " ++ mName ++ " " ++ toString year ++ "\n\n"
    let body :=
      match format with
      | .csv =>
          let csvRows := "Date,Owner,Repository,Author,Additions,Deletions,Files,Message" ::
            commits.map (commitCsvRow owner)
          "```csv\n" ++ String.intercalate "\n" csvRows ++ "```\n\n"
      | .nl =>
          "## Summary for " ++ owner ++ "/" ++ repo ++ " in " ++ mName ++ " " ++
            toString year ++ "\n" ++
          "Total commits in " ++ owner ++ "/" ++ repo ++ " for " ++ mName ++ " " ++
            toString year ++ ": " ++ toString commits.length ++ "\n" ++
          "Total lines changed in " ++ owner ++ "/" ++ repo ++ " for " ++ mName ++ " " ++
            toString year ++ ": +" ++
            toString (commits.foldl (fun sum c => sum + c.additions) 0) ++ " -" ++
            toString (commits.foldl (fun sum c => sum + c.deletions) 0) ++ "\n\n" ++
          "## Detailed Commits\n\n" ++
          String.join (commits.map (commitNlSection owner repo))
    some (header ++ body)

/-- `.replace(/\n/g, '\n  ')` used to indent the issue body in the
natural-language report. -/
def indentBody (s : String) : String :=
  String.mk (s.data.flatMap (fun c => if c = '\n' then ['\n', ' ', ' '] else [c]))

/-- One `### Issue ...` subsection of the natural-language issues report. -/
def issueNlSection (owner repo : String) (i : Issue) : String :=
  "### Issue #" ++ toString i.number ++ " was " ++ i.operation ++ " on " ++ i.updatedAt ++
    " in repository " ++ owner ++ "/" ++ repo ++ " with title \"" ++ i.title ++ "\"\n" ++
  (if i.createdAt ≠ i.updatedAt then "- **Created on:** " ++ i.createdAt ++ "\n" else "") ++
  (match i.closedAt with
   | some c => "- **Closed on:** " ++ c ++ "\n"
   | none => "") ++
  "- **Author:** " ++ i.author ++ "\n" ++
  "- **Assignee:** " ++ i.assignee ++ "\n" ++
  "- **State:** " ++ i.state ++ "\n" ++
  (if i.labels.length > 0 then
    "- **Labels:** " ++ String.intercalate ", " i.labels ++ "\n"
   else "") ++
  (if i.milestone ≠ "" then "- **Milestone:** " ++ i.milestone ++ "\n" else "") ++
  (if i.body ≠ "" then
    (let truncatedBody := if i.body.length > 500 then String.mk (i.body.data.take 497) ++ "..." else i.body
     "- **Description:**\n  " ++ indentBody truncatedBody ++ "\n")
   else "") ++
  "\n"

/-- `generateMonthlyReport` of the issues module, with the fetched records
and the parsed `--format` passed as values. -/
def generateMonthlyReportIssues (owner repo : String) (year month : Nat)
    (format : Format) (issues : List Issue) : Option String :=
  let mName := monthName month
  if issues.length = 0 then none
  else
    let header := "# GitHub Issues in " ++ repo ++ " owned by " ++ owner ++
      " for " ++ mName ++ " " ++ toString year ++ "\n\n"
    let body :=
      match format with
      | .csv =>
          let csvRows :=
            "UpdateAt, CreatedAt, ClosedAt, Assignee, Owner, Repository, Author, Title, State, Labels, Milestone, Body" ::
            issues.map (issueCsvRow owner)
          "```csv\n" ++ String.intercalate "\n" csvRows ++ "```\n\n"
      | .nl =>
          let openIssues := issues.filter (fun i => i.state = "open")
          let closedIssues := issues.filter (fun i => i.state = "closed")
          "## Summary for " ++ owner ++ "/" ++ repo ++ " in " ++ mName ++ " " ++
            toString year ++ "\n" ++
          "Total issues in " ++ owner ++ "/" ++ repo ++ " for " ++ mName ++ " " ++
            toString year ++ ": " ++ toString issues.length ++ "\n\n" ++
          "- Open issues: " ++ toString openIssues.length ++ "\n" ++
          "- Closed issues: " ++ toString closedIssues.length ++ "\n\n" ++
          "## Detailed Issues\n\n" ++
          String.join (issues.map (issueNlSection owner repo))
    some (header ++ body)

/-- One repository of the driver loop in `processRepositories`: the
outcome of `existsSync` on its output path, of `shouldGenerateActivity`,
of the `generateReport` call (which can throw, or resolve to a report or
to `null`), and of the `writeFile` call. -/
structure RepoCase where
  name : String
  fileExists : Bool
  shouldGenerate : Bool
  reportResult : Except String (Option String)
  writeResult : Except String Unit

/-- The driver inputs the loop reads: the `--replace` flag and the
optional `--omit` repository name. -/
structure DriverArgs where
  shouldReplace : Bool
  omitRepo : Option String

/-- The repository loop of `processRepositories` in `src/lib/github.ts`:
skip when the output file exists without `--replace`, when the name equals
a non-empty `--omit` argument, or when the activity configuration excludes
the repository; otherwise generate the report and, when it is non-null,
write it.  There is no try/catch in the loop, so a thrown generate or
write error propagates out.  The result collects the names written, or the
first uncaught error. -/
def processRepositories (args : DriverArgs) : List RepoCase → Except String (List String)
  | [] => .ok []
  | r :: rest =>
      if r.fileExists && !args.shouldReplace then processRepositories args rest
      else if (match args.omitRepo with
               | some o => !(o == "") && r.name == o
               | none => false) then processRepositories args rest
      else if !r.shouldGenerate then processRepositories args rest
      else
        match r.reportResult with
        | .error e => .error e
        | .ok none => processRepositories args rest
        | .ok (some _) =>
            match r.writeResult with
            | .error e => .error e
            | .ok _ => (processRepositories args rest).map (fun written => r.name :: written)

/-- An issue whose title contains a comma, used to exhibit the unescaped
title field in the CSV row. -/
def titleCommaIssue : Issue :=
  { updatedAt := "01/05/2024 1:00 PM"
    createdAt := "01/05/2024 1:00 PM"
    closedAt := none
    assignee := "unassigned"
    operation := "Created"
    repo := "widgets"
    title := "a,b"
    number := 1
    state := "open"
    author := "alice"
    body := ""
    labels := []
    milestone := ""
    state_reason := "" }

/-! ## Helper lemmas -/

/-- The one-day test of the classifier: on integers, dividing the gap by
`msPerDay` and comparing with 1 is the same as comparing the gap with
`msPerDay`. -/
theorem div_msPerDay_ge_one (d : Int) : d / msPerDay ≥ 1 ↔ d ≥ msPerDay := by
  unfold msPerDay
  omega

set_option maxHeartbeats 1000000 in
/-- Day 1 of the next calendar month is `daysInMonth` days after day 1 of
the month. -/
theorem daysFromCivil_next_month (y m : Nat) (hy : 1 ≤ y) (h1 : 1 ≤ m) (h2 : m ≤ 12) :
    (if m = 12 then daysFromCivil (y + 1) 1 1 else daysFromCivil y (m + 1) 1) =
      daysFromCivil y m 1 + (daysInMonth y m : Int) := by
  interval_cases m <;>
    simp only [daysFromCivil, daysInMonth] <;>
    split_ifs <;>
    first
      | omega
      | simp_all

/-- Midnight starting the month after the report month is exactly the
month's length after midnight starting the report month. -/
theorem nextMonthStartMs_eq (year month : Nat) (hy : 1 ≤ year)
    (h1 : 1 ≤ month) (h2 : month ≤ 12) :
    nextMonthStartMs year month =
      startDateMs year month + (daysInMonth year month : Int) * msPerDay := by
  have hdays := daysFromCivil_next_month year month hy h1 h2
  unfold nextMonthStartMs startDateMs msOfDate
  split_ifs with h12
  · rw [if_pos h12] at hdays
    rw [hdays]
    ring
  · rw [if_neg h12] at hdays
    rw [hdays]
    ring

/-- The commit sort returns a list sorted by the re-parsed display date. -/
theorem sortCommits_sorted (l : List Commit) :
    List.Sorted (fun a b => parseDateMs a.date ≤ parseDateMs b.date) (sortCommits l) := by
  have h := @List.sorted_mergeSort Commit
    (fun a b : Commit => decide (parseDateMs a.date ≤ parseDateMs b.date))
    (by intro a b c hab hbc; simp only [decide_eq_true_eq] at *; omega)
    (by intro a b; simp only [Bool.or_eq_true, decide_eq_true_eq]; omega) l
  exact h.imp (by simp)

/-- The issue fetcher returns a list sorted by `updated_at`. -/
theorem issueActivity_sorted (year month : Nat) (res : Except String (List RawIssue)) :
    List.Sorted (fun a b : RawIssue => a.updated_at ≤ b.updated_at)
      (getMonthlyIssueActivity year month res) := by
  cases res with
  | error e => simp [getMonthlyIssueActivity]
  | ok data =>
      have h := @List.sorted_mergeSort RawIssue
        (fun a b : RawIssue => decide (a.updated_at ≤ b.updated_at))
        (by intro a b c hab hbc; simp only [decide_eq_true_eq] at *; omega)
        (by intro a b; simp only [Bool.or_eq_true, decide_eq_true_eq]; omega)
        (data.filter (fun issue => issueInWindow year month issue.updated_at))
      exact h.imp (by simp)

/-- The escape map hits no comma and no newline. -/
theorem escapeChar_ne (c : Char) : escapeChar c ≠ ',' ∧ escapeChar c ≠ '\n' := by
  unfold escapeChar
  split_ifs <;> simp_all

/-- Unrolling of the pagination loop when the first short page is `len`
pages after the starting page. -/
theorem fetchCommitPages_run (pages : Nat → List RawCommit) :
    ∀ (len p fuel : Nat),
      (∀ i, p ≤ i → i < p + len → 100 ≤ (pages i).length) →
      (pages (p + len)).length < 100 →
      len < fuel →
      fetchCommitPages pages fuel p = ((List.range' p (len + 1)).map pages).flatten := by
  intro len
  induction len with
  | zero =>
      intro p fuel _ hshort hfuel
      match fuel, hfuel with
      | fuel + 1, _ =>
          simp only [fetchCommitPages]
          rw [if_pos (by simpa using hshort)]
          simp [List.range']
  | succ n ih =>
      intro p fuel hlong hshort hfuel
      match fuel, hfuel with
      | fuel + 1, hfuel =>
          simp only [fetchCommitPages]
          rw [if_neg (by
            have := hlong p (Nat.le_refl p) (by omega)
            omega)]
          rw [ih (p + 1) fuel
            (by intro i h1i h2i; exact hlong i (by omega) (by omega))
            (by have heq : p + 1 + n = p + (n + 1) := by omega
                rw [heq]; exact hshort)
            (by omega)]
          simp [List.range'_succ, List.append_assoc]

/-! ## Claim theorems -/

/-- Claim C1: for every issue input, the operation classifier returns,
when `closedAt` is non-null, the base label (Reopened / Completed /
Ignored by state reason, else Closed) prefixed with "Created and "
exactly when `createdAt` and `closedAt` share a calendar month; when
`closedAt` is null and `createdAt` and `updatedAt` share a calendar
month, "Created" on exact equality or a gap under one day and
"Updated a New Issue" on a gap of at least one day; and "Updated" in
every remaining case. -/
theorem determineOperation_matches_spec (u c : JSDate) (cl : Option JSDate)
    (sr : Option String) :
    determineOperation u c cl sr = determineOperationSpec u c cl sr := by
  cases cl with
  | some d =>
      simp only [determineOperation, determineOperationSpec]
  | none =>
      simp only [determineOperation, determineOperationSpec]
      split_ifs <;> first
        | rfl
        | (exfalso; simp only [msPerDay] at *; omega)

/-- Claim C2, counterexample: a record stamped at noon on the last day of
January 2024 lies on the last day of the month (between the window's end
point and the next midnight) yet fails the window test and is dropped by
the issue fetcher, so the window is not inclusive of the whole last
boundary day. -/
theorem issue_window_excludes_last_day_afternoon :
    issueInWindow 2024 1 (msOfDate 2024 1 31 43200000) = false ∧
    endDateMs 2024 1 = msOfDate 2024 1 31 0 ∧
    endDateMs 2024 1 ≤ msOfDate 2024 1 31 43200000 ∧
    msOfDate 2024 1 31 43200000 < endDateMs 2024 1 + msPerDay ∧
    getMonthlyIssueActivity 2024 1 (.ok [⟨msOfDate 2024 1 31 43200000, 7⟩]) = [] := by
  refine ⟨by decide, by decide, by decide, by decide, ?_⟩
  have hp : issueInWindow 2024 1 (msOfDate 2024 1 31 43200000) = false := by decide
  simp [getMonthlyIssueActivity, List.filter_cons, hp]

/-- Claim C2, amended: the issue fetcher keeps exactly the records whose
`updated_at` lies in the inclusive window from day 1 at 00:00 up to
midnight at the START of the last day of the month; timestamps later on
the last day fall outside the window. -/
theorem issue_window_filter_exact (year month : Nat) (hy : 1 ≤ year)
    (h1 : 1 ≤ month) (h2 : month ≤ 12) (data : List RawIssue) (i : RawIssue) :
    (i ∈ getMonthlyIssueActivity year month (.ok data) ↔
      i ∈ data ∧ startDateMs year month ≤ i.updated_at ∧
        i.updated_at ≤ endDateMs year month) ∧
    endDateMs year month =
      startDateMs year month + ((daysInMonth year month : Int) - 1) * msPerDay := by
  constructor
  · simp [getMonthlyIssueActivity, List.mem_filter, issueInWindow, and_assoc]
  · have h := nextMonthStartMs_eq year month hy h1 h2
    unfold endDateMs
    rw [h]
    ring

/-- Witness for `issue_window_filter_exact` at January 2024 with a record
stamped at the window start. -/
theorem issue_window_filter_exact_witness :
    ((⟨startDateMs 2024 1, 1⟩ : RawIssue) ∈
        getMonthlyIssueActivity 2024 1 (.ok [⟨startDateMs 2024 1, 1⟩]) ↔
      (⟨startDateMs 2024 1, 1⟩ : RawIssue) ∈ [(⟨startDateMs 2024 1, 1⟩ : RawIssue)] ∧
      startDateMs 2024 1 ≤ (⟨startDateMs 2024 1, 1⟩ : RawIssue).updated_at ∧
      (⟨startDateMs 2024 1, 1⟩ : RawIssue).updated_at ≤ endDateMs 2024 1) ∧
    endDateMs 2024 1 = startDateMs 2024 1 + ((daysInMonth 2024 1 : Int) - 1) * msPerDay :=
  issue_window_filter_exact 2024 1 (by decide) (by decide) (by decide)
    [⟨startDateMs 2024 1, 1⟩] ⟨startDateMs 2024 1, 1⟩

/-- Claim C3, counterexample: the repository loop has no per-repository
try/catch, so a write failure on the first repository aborts the run with
the error and the second (healthy) repository is never processed, even
though alone it would have been written. -/
theorem processRepositories_write_failure_aborts_run :
    processRepositories { shouldReplace := false, omitRepo := none }
      [{ name := "alpha", fileExists := false, shouldGenerate := true,
         reportResult := .ok (some "report"), writeResult := .error "disk full" },
       { name := "beta", fileExists := false, shouldGenerate := true,
         reportResult := .ok (some "report"), writeResult := .ok () }] =
      .error "disk full" ∧
    processRepositories { shouldReplace := false, omitRepo := none }
      [{ name := "beta", fileExists := false, shouldGenerate := true,
         reportResult := .ok (some "report"), writeResult := .ok () }] =
      .ok ["beta"] :=
  ⟨rfl, rfl⟩

/-- Claim C3, amended: a failure raised while processing a repository
(report generation or file write) is NOT caught at the repository-driver
level: it propagates out of the loop as the run's result, and the
remaining repositories (an arbitrary `rest`) are not processed. -/
theorem processRepositories_failure_propagates (args : DriverArgs) (r : RepoCase)
    (rest : List RepoCase) (e : String)
    (hfile : r.fileExists = false) (homit : args.omitRepo = none)
    (hgen : r.shouldGenerate = true)
    (herr : r.reportResult = .error e ∨
      ∃ rep, r.reportResult = .ok (some rep) ∧ r.writeResult = .error e) :
    processRepositories args (r :: rest) = .error e := by
  rcases herr with h | ⟨rep, h1, h2⟩
  · simp [processRepositories, hfile, homit, hgen, h]
  · simp [processRepositories, hfile, homit, hgen, h1, h2]

/-- Witness for `processRepositories_failure_propagates`. -/
theorem processRepositories_failure_propagates_witness :
    processRepositories { shouldReplace := false, omitRepo := none }
      [{ name := "alpha", fileExists := false, shouldGenerate := true,
         reportResult := .error "boom", writeResult := .ok () }] = .error "boom" :=
  processRepositories_failure_propagates _ _ [] "boom" rfl rfl rfl (Or.inl rfl)

/-- Claim C4: an escaped commit message of exactly 1025 characters is
truncated to its first 1021 characters plus "..." (1024 total), and a
file list of 51 entries becomes its first 49 entries plus one
"...and 2 more files" marker. -/
theorem csv_truncation_boundaries (msg : String) (files : List String)
    (hmsg : (escapeField msg).length = 1025) (hfiles : files.length = 51) :
    truncate1024 (escapeField msg) =
      String.mk ((escapeField msg).data.take 1021) ++ "..." ∧
    (truncate1024 (escapeField msg)).length = 1024 ∧
    truncateFiles files = files.take 49 ++ ["...and 2 more files"] := by
  have hdata : (escapeField msg).data.length = 1025 := hmsg
  refine ⟨?_, ?_, ?_⟩
  · simp [truncate1024, hmsg]
  · rw [truncate1024, if_pos (by omega)]
    rw [String.length_append]
    have h1 : (String.mk ((escapeField msg).data.take 1021)).length = 1021 := by
      show ((escapeField msg).data.take 1021).length = 1021
      rw [List.length_take]
      omega
    rw [h1]
    rfl
  · rw [truncateFiles, if_pos (by omega)]
    rw [hfiles]
    congr 1

/-- Witness for `csv_truncation_boundaries` on a 1025-character message
and a 51-entry file list. -/
theorem csv_truncation_boundaries_witness :
    truncate1024 (escapeField (String.mk (List.replicate 1025 'a'))) =
      String.mk ((escapeField (String.mk (List.replicate 1025 'a'))).data.take 1021) ++ "..." ∧
    (truncate1024 (escapeField (String.mk (List.replicate 1025 'a')))).length = 1024 ∧
    truncateFiles (List.replicate 51 "f") =
      (List.replicate 51 "f").take 49 ++ ["...and 2 more files"] :=
  csv_truncation_boundaries (String.mk (List.replicate 1025 'a')) (List.replicate 51 "f")
    (by show ((List.replicate 1025 'a').map escapeChar).length = 1025
        rw [List.length_map, List.length_replicate])
    (by rw [List.length_replicate])

/-- Claim C5: both report generators return null exactly when the fetched
record set is empty, and the repository driver performs no write for a
repository whose report is null (the loop just moves on). -/
theorem report_null_iff_no_records_and_no_write (owner repo : String) (year month : Nat)
    (format : Format) (commits : List Commit) (issues : List Issue)
    (sr : Bool) (n : String) (wr : Except String Unit) (rest : List RepoCase) :
    (generateMonthlyReportCommits owner repo year month format commits = none ↔
      commits = []) ∧
    (generateMonthlyReportIssues owner repo year month format issues = none ↔
      issues = []) ∧
    processRepositories ⟨sr, none⟩
      ({ name := n, fileExists := false, shouldGenerate := true,
         reportResult := .ok none, writeResult := wr } :: rest) =
      processRepositories ⟨sr, none⟩ rest := by
  refine ⟨?_, ?_, ?_⟩
  · cases commits <;> simp [generateMonthlyReportCommits]
  · cases issues <;> simp [generateMonthlyReportIssues]
  · simp [processRepositories]

/-- Claim C6, counterexample: the issue CSV row embeds the title verbatim,
so a title containing a comma reaches the emitted row unescaped and the
row differs from the fully-escaped row the specification describes (the
raw row even splits into one more comma-field than the escaped one). -/
theorem issue_csv_title_comma_unescaped :
    issueCsvRow "acme" titleCommaIssue ≠ issueCsvRowSpecEscaped "acme" titleCommaIssue ∧
    issueCsvRow "acme" titleCommaIssue =
      "01/05/2024 1:00 PM,01/05/2024 1:00 PM,,unassigned,acme,widgets,alice,a,b,open,\"\",," ∧
    issueCsvRowSpecEscaped "acme" titleCommaIssue =
      "01/05/2024 1:00 PM,01/05/2024 1:00 PM,,unassigned,acme,widgets,alice,a;b,open,\"\",," :=
  ⟨by decide, by decide, by decide⟩

/-- Claim C6, amended: only the commit message and issue body are escaped
before embedding; the embedded (escaped, truncated) field contains no
comma and no newline, while the other free-text fields are embedded
verbatim (see the counterexample). -/
theorem escaped_embedded_field_clean (s : String) (ch : Char)
    (h : ch ∈ (truncate1024 (escapeField s)).data) : ch ≠ ',' ∧ ch ≠ '\n' := by
  have hmem : ∀ d ∈ (escapeField s).data, d ≠ ',' ∧ d ≠ '\n' := by
    intro d hd
    simp only [escapeField] at hd
    obtain ⟨c, _, rfl⟩ := List.mem_map.mp hd
    exact escapeChar_ne c
  rw [truncate1024] at h
  split_ifs at h with hlen
  · rw [String.data_append] at h
    rcases List.mem_append.mp h with h' | h'
    · exact hmem ch (List.mem_of_mem_take h')
    · have h3 : ("..." : String).data = ['.', '.', '.'] := rfl
      rw [h3] at h'
      simp at h'
      subst h'
      exact ⟨by decide, by decide⟩
  · exact hmem ch h

/-- Witness for `escaped_embedded_field_clean` on the escaped form of
`"x,y"`. -/
theorem escaped_embedded_field_clean_witness : ('x' : Char) ≠ ',' ∧ ('x' : Char) ≠ '\n' :=
  escaped_embedded_field_clean "x,y" 'x' (by decide)

/-- Claim C7: the commit fetcher returns records sorted ascending by the
formatted display date parsed back to a timestamp (and the sort is a
permutation of its input), and the issue fetcher returns records sorted
ascending by `updated_at` (a permutation of the window-filtered data). -/
theorem fetchers_return_sorted_records
    (pagesResult : Except String (Nat → List RawCommit)) (fuel : Nat)
    (details : RawCommit → Except String Commit)
    (year month : Nat) (issueResult : Except String (List RawIssue))
    (l : List Commit) (raw : List RawIssue) :
    List.Sorted (fun a b => parseDateMs a.date ≤ parseDateMs b.date)
      (getMonthlyCommitActivity pagesResult fuel details) ∧
    List.Perm (sortCommits l) l ∧
    List.Sorted (fun a b : RawIssue => a.updated_at ≤ b.updated_at)
      (getMonthlyIssueActivity year month issueResult) ∧
    List.Perm (getMonthlyIssueActivity year month (.ok raw))
      (raw.filter (fun i => issueInWindow year month i.updated_at)) := by
  refine ⟨?_, List.mergeSort_perm l _, issueActivity_sorted year month issueResult,
    List.mergeSort_perm _ _⟩
  cases pagesResult with
  | error e => simp [getMonthlyCommitActivity]
  | ok pages => exact sortCommits_sorted _

/-- Claim C8: when page `k` is the first page with fewer than 100 records,
the pagination loop fetches pages 1 through `k` and stops (any fuel of at
least `k` yields the same result), and the collected commits are the
concatenation of those pages in page order. -/
theorem commit_pagination_stops_at_first_short_page (pages : Nat → List RawCommit)
    (k fuel : Nat) (hk : 1 ≤ k)
    (hlong : ∀ i ∈ List.range' 1 (k - 1), 100 ≤ (pages i).length)
    (hshort : (pages k).length < 100)
    (hfuel : k ≤ fuel) :
    fetchCommitPages pages fuel 1 = ((List.range' 1 k).map pages).flatten := by
  have h := fetchCommitPages_run pages (k - 1) 1 fuel
    (by intro i h1i h2i
        exact hlong i (List.mem_range'_1.mpr ⟨h1i, h2i⟩))
    (by have heq : 1 + (k - 1) = k := by omega
        rw [heq]; exact hshort)
    (by omega)
  have hk1 : k - 1 + 1 = k := by omega
  rw [hk1] at h
  exact h

/-- Witness for `commit_pagination_stops_at_first_short_page`: one full
page of 100 then a short page of 1. -/
theorem commit_pagination_stops_at_first_short_page_witness :
    fetchCommitPages
      (fun p => if p = 1 then List.replicate 100 (⟨"a"⟩ : RawCommit)
                else if p = 2 then [⟨"b"⟩] else []) 2 1 =
    ((List.range' 1 2).map
      (fun p => if p = 1 then List.replicate 100 (⟨"a"⟩ : RawCommit)
                else if p = 2 then [⟨"b"⟩] else [])).flatten :=
  commit_pagination_stops_at_first_short_page _ 2 2 (by decide) (by decide)
    (by decide) (by decide)

/-- Claim C9: with `closedAt` null the classifier ignores the state
reason, lands in the three open-issue labels, never returns a closed
label, and never returns a "Created and ..." label. -/
theorem open_issue_operation_independent_of_state_reason (u c : JSDate)
    (sr sr' : Option String) :
    determineOperation u c none sr = determineOperation u c none sr' ∧
    determineOperation u c none sr ∈
      (["Created", "Updated a New Issue", "Updated"] : List String) ∧
    determineOperation u c none sr ∉
      (["Closed", "Reopened", "Completed", "Ignored"] : List String) ∧
    ("Created and ".data.isPrefixOf (determineOperation u c none sr).data) = false := by
  refine ⟨?_, ?_, ?_, ?_⟩ <;>
    simp only [determineOperation] <;>
    split_ifs <;> simp_all <;> decide

/-- Claim C10: a thrown list fetch is caught inside the fetcher, which
returns the empty list — exactly what a month with no activity returns —
so the report generator returns null and the driver writes nothing for
that repository. -/
theorem failed_fetch_indistinguishable_from_no_activity (e : String) (fuel : Nat)
    (details : RawCommit → Except String Commit) (owner repo : String) (year month : Nat)
    (format : Format) (sr : Bool) (n : String) (wr : Except String Unit)
    (rest : List RepoCase) :
    getMonthlyCommitActivity (.error e) fuel details = [] ∧
    getMonthlyCommitActivity (.error e) fuel details =
      getMonthlyCommitActivity (.ok (fun _ => [])) fuel details ∧
    getMonthlyIssueActivity year month (.error e) = [] ∧
    getMonthlyIssueActivity year month (.error e) =
      getMonthlyIssueActivity year month (.ok []) ∧
    generateMonthlyReportCommits owner repo year month format [] = none ∧
    generateMonthlyReportIssues owner repo year month format [] = none ∧
    processRepositories ⟨sr, none⟩
      ({ name := n, fileExists := false, shouldGenerate := true,
         reportResult := .ok none, writeResult := wr } :: rest) =
      processRepositories ⟨sr, none⟩ rest := by
  refine ⟨rfl, ?_, rfl, ?_, rfl, rfl, ?_⟩
  · cases fuel <;> simp [getMonthlyCommitActivity, fetchCommitPages, sortCommits]
  · simp [getMonthlyIssueActivity]
  · simp [processRepositories]

end GHExport
